import Mathlib

/-!
Shallow embedding of the ST7789 / T-Display-S3 display driver
(`src/main/main.c`) for the LilyGO T-Display-S3 test firmware.

The driver keeps a global orientation state, translates logical
rectangles into physical column/row windows (`set_draw_area`,
main.c:211-291), switches orientation (`set_display_orientation`,
main.c:114-200), clears the screen (`clear_screen`, main.c:299-341)
and flushes LVGL pixel buffers (`lvgl_flush_cb`, main.c:423-453).

Fallible transport primitives (`esp_lcd_panel_io_tx_param`,
`esp_lcd_panel_set_gap`, `esp_lcd_panel_draw_bitmap`, allocation) are
modelled by explicit outcome records; each driver function returns the
esp_err_t style result together with the trace of panel operations it
attempted, and (where the C function runs against the global state)
the resulting state.
-/

/-- Physical horizontal resolution, main.c:41 (`LCD_H_RES`, 170). -/
def LCD_H_RES : Int := 170

/-- Physical vertical resolution, main.c:42 (`LCD_V_RES`, 320). -/
def LCD_V_RES : Int := 320

/-- Logical X offset applied in `set_draw_area`, main.c:45 (`LCD_X_OFFSET`, 0). -/
def LCD_X_OFFSET : Int := 0

/-- Logical Y offset applied in `set_draw_area`, main.c:46 (`LCD_Y_OFFSET`, 0). -/
def LCD_Y_OFFSET : Int := 0

/-- Enumerator value of `DISPLAY_ORIENTATION_0`, main.c:57. -/
def DISPLAY_ORIENTATION_0 : Int := 0

/-- Enumerator value of `DISPLAY_ORIENTATION_90`, main.c:58. -/
def DISPLAY_ORIENTATION_90 : Int := 1

/-- Enumerator value of `DISPLAY_ORIENTATION_180`, main.c:59. -/
def DISPLAY_ORIENTATION_180 : Int := 2

/-- Enumerator value of `DISPLAY_ORIENTATION_270`, main.c:60. -/
def DISPLAY_ORIENTATION_270 : Int := 3

/-- A logical rectangle: the four `int` arguments of `set_draw_area`
(main.c:211). -/
structure Rect where
  x_start : Int
  x_end : Int
  y_start : Int
  y_end : Int
deriving DecidableEq, Repr

/-- The physical window: the four `uint16_t` locals of `set_draw_area`
(main.c:230). -/
structure DrawWindow where
  col_start : Nat
  col_end : Nat
  row_start : Nat
  row_end : Nat
deriving DecidableEq, Repr

/-- C conversion of an `int` value to `uint16_t`: reduction modulo 2^16
(C11 6.3.1.3p2). -/
def toU16 (i : Int) : Nat := (i % 65536).toNat

/-- The esp_err_t results the driver distinguishes: `ESP_OK`,
`ESP_ERR_INVALID_ARG` (main.c:157), `ESP_ERR_INVALID_STATE` (main.c:250),
`ESP_ERR_NO_MEM` (main.c:310) and a generic transport-write failure. -/
inductive EspErr where
  | ok
  | invalidArg
  | invalidState
  | noMem
  | txFail
deriving DecidableEq, Repr

/-- Panel operations the driver performs, in the order attempted:
`esp_lcd_panel_io_tx_param` (a command byte with parameter bytes),
`esp_lcd_panel_set_gap`, `esp_lcd_panel_draw_bitmap`,
`esp_lcd_panel_io_tx_color` (the terminating colour-transfer call). -/
inductive PanelOp where
  | txParam (addr : Nat) (params : List Nat)
  | setGap (x_gap y_gap : Int)
  | drawBitmap
  | txColor
deriving DecidableEq, Repr

/-- Largest legal logical x for an orientation, main.c:222:
`(o == 0 || o == 180) ? LCD_H_RES - 1 : LCD_V_RES - 1`. -/
def max_x (o : Int) : Int :=
  if o = DISPLAY_ORIENTATION_0 ∨ o = DISPLAY_ORIENTATION_180 then LCD_H_RES - 1
  else LCD_V_RES - 1

/-- Largest legal logical y for an orientation, main.c:223. -/
def max_y (o : Int) : Int :=
  if o = DISPLAY_ORIENTATION_0 ∨ o = DISPLAY_ORIENTATION_180 then LCD_V_RES - 1
  else LCD_H_RES - 1

/-- Offset and clamping steps of `set_draw_area`, main.c:216-227:
add `LCD_X_OFFSET`/`LCD_Y_OFFSET`, then `MAX(start, 0)` and
`MIN(end, max)` per axis. -/
def clampRect (o : Int) (r : Rect) : Rect :=
  { x_start := max (r.x_start + LCD_X_OFFSET) 0
    x_end := min (r.x_end + LCD_X_OFFSET) (max_x o)
    y_start := max (r.y_start + LCD_Y_OFFSET) 0
    y_end := min (r.y_end + LCD_Y_OFFSET) (max_y o) }

/-- Orientation switch of `set_draw_area`, main.c:231-251: the four
branches computing the physical window, each `int` expression converted
to `uint16_t` at assignment; `none` is the `default` branch returning
`ESP_ERR_INVALID_STATE`. -/
def physMap (o : Int) (r : Rect) : Option DrawWindow :=
  if o = DISPLAY_ORIENTATION_0 then
    some { col_start := toU16 r.x_start, col_end := toU16 r.x_end
           row_start := toU16 r.y_start, row_end := toU16 r.y_end }
  else if o = DISPLAY_ORIENTATION_90 then
    some { col_start := toU16 r.y_start, col_end := toU16 r.y_end
           row_start := toU16 r.x_start, row_end := toU16 r.x_end }
  else if o = DISPLAY_ORIENTATION_180 then
    some { col_start := toU16 (LCD_H_RES - 1 - r.x_end)
           col_end := toU16 (LCD_H_RES - 1 - r.x_start)
           row_start := toU16 (LCD_V_RES - 1 - r.y_end)
           row_end := toU16 (LCD_V_RES - 1 - r.y_start) }
  else if o = DISPLAY_ORIENTATION_270 then
    some { col_start := toU16 (LCD_H_RES - 1 - r.y_end)
           col_end := toU16 (LCD_H_RES - 1 - r.y_start)
           row_start := toU16 (LCD_V_RES - 1 - r.x_end)
           row_end := toU16 (LCD_V_RES - 1 - r.x_start) }
  else none

/-- Full logical-to-physical translation of `set_draw_area`
(main.c:216-251): offset, clamp, then the orientation switch. -/
def translateRect (o : Int) (r : Rect) : Option DrawWindow :=
  physMap o (clampRect o r)

/-- Outcomes of the three `esp_lcd_panel_io_tx_param` calls inside
`set_draw_area` (CASET main.c:266, RASET main.c:277, RAMWR main.c:284). -/
structure DrawTx where
  caset_ok : Bool
  raset_ok : Bool
  ramwr_ok : Bool
deriving DecidableEq, Repr

/-- The CASET command (opcode 0x2A) with its parameter bytes, built
exactly as main.c:262-266: `(v >> 8) & 0xFF` then `v & 0xFF` for start
and end. -/
def casetOp (w : DrawWindow) : PanelOp :=
  .txParam 0x2A
    [w.col_start >>> 8 &&& 0xFF, w.col_start &&& 0xFF,
     w.col_end >>> 8 &&& 0xFF, w.col_end &&& 0xFF]

/-- The RASET command (opcode 0x2B) with its parameter bytes, main.c:273-277. -/
def rasetOp (w : DrawWindow) : PanelOp :=
  .txParam 0x2B
    [w.row_start >>> 8 &&& 0xFF, w.row_start &&& 0xFF,
     w.row_end >>> 8 &&& 0xFF, w.row_end &&& 0xFF]

/-- The RAMWR command (opcode 0x2C) with no parameters, main.c:284. -/
def ramwrOp : PanelOp := .txParam 0x2C []

/-- `set_draw_area`, main.c:211-291, against orientation `o` (the value
the function reads from the global `current_orientation`): translate the
rectangle, then attempt CASET, RASET, RAMWR in order, aborting on the
first transport failure. Returns the result and the trace of attempted
commands. -/
def set_draw_area (tx : DrawTx) (o : Int) (r : Rect) : EspErr × List PanelOp :=
  match translateRect o r with
  | none => (.invalidState, [])
  | some w =>
    if !tx.caset_ok then (.txFail, [casetOp w])
    else if !tx.raset_ok then (.txFail, [casetOp w, rasetOp w])
    else if !tx.ramwr_ok then (.txFail, [casetOp w, rasetOp w, ramwrOp])
    else (.ok, [casetOp w, rasetOp w, ramwrOp])

/-- The driver's global mutable state read and written by the functions
above: `current_orientation` (main.c:68) and the LVGL driver's logical
resolution (`disp_drv->hor_res` / `ver_res`, main.c:185-186), guarded by
whether `lvgl_disp` is non-NULL (main.c:183). -/
structure DisplayState where
  current_orientation : Int
  lvgl_registered : Bool
  hor_res : Int
  ver_res : Int
deriving DecidableEq, Repr

/-- Per-orientation parameters chosen by the switch in
`set_display_orientation`, main.c:122-158: MADCTL byte, logical
resolution and gap offsets. -/
structure OrientParams where
  madctl : Nat
  hor_res : Int
  ver_res : Int
  x_gap : Int
  y_gap : Int
deriving DecidableEq, Repr

/-- The orientation switch of `set_display_orientation`, main.c:122-158;
`none` is the `default` branch returning `ESP_ERR_INVALID_ARG`. -/
def resolveOrientation (o : Int) : Option OrientParams :=
  if o = DISPLAY_ORIENTATION_0 then
    some { madctl := 0x08, hor_res := LCD_H_RES, ver_res := LCD_V_RES, x_gap := 35, y_gap := 0 }
  else if o = DISPLAY_ORIENTATION_90 then
    some { madctl := 0x68, hor_res := LCD_V_RES, ver_res := LCD_H_RES, x_gap := 0, y_gap := 35 }
  else if o = DISPLAY_ORIENTATION_180 then
    some { madctl := 0xC8, hor_res := LCD_H_RES, ver_res := LCD_V_RES, x_gap := 35, y_gap := 0 }
  else if o = DISPLAY_ORIENTATION_270 then
    some { madctl := 0xA8, hor_res := LCD_V_RES, ver_res := LCD_H_RES, x_gap := 0, y_gap := 35 }
  else none

/-- Outcomes of the fallible steps of `clear_screen`, main.c:299-341:
the `heap_caps_malloc` allocation, the three window commands of its
`set_draw_area` call, and `esp_lcd_panel_draw_bitmap`. -/
structure ClearTx where
  alloc_ok : Bool
  draw : DrawTx
  bitmap_ok : Bool
deriving DecidableEq, Repr

/-- `clear_screen`, main.c:299-341: allocate, set the full-screen draw
area for the current orientation, draw the fill buffer, terminate the
colour transfer (result ignored, main.c:334), and return the
`draw_bitmap` result. The function never writes the global state. -/
def clear_screen (tx : ClearTx) (st : DisplayState) : EspErr × List PanelOp :=
  if !tx.alloc_ok then (.noMem, [])
  else
    let hor : Int :=
      if st.current_orientation = DISPLAY_ORIENTATION_0 ∨
         st.current_orientation = DISPLAY_ORIENTATION_180 then LCD_H_RES else LCD_V_RES
    let ver : Int :=
      if st.current_orientation = DISPLAY_ORIENTATION_0 ∨
         st.current_orientation = DISPLAY_ORIENTATION_180 then LCD_V_RES else LCD_H_RES
    let d := set_draw_area tx.draw st.current_orientation
      { x_start := 0, x_end := hor - 1, y_start := 0, y_end := ver - 1 }
    if d.1 ≠ .ok then (d.1, d.2)
    else
      ((if tx.bitmap_ok then .ok else .txFail), d.2 ++ [.drawBitmap, .txColor])

/-- Outcomes of the fallible steps of `set_display_orientation`,
main.c:114-200: the MADCTL `tx_param` write (main.c:165), the
`esp_lcd_panel_set_gap` call (main.c:172), and the steps of the final
`clear_screen` call (main.c:193). -/
structure OrientTx where
  madctl_ok : Bool
  set_gap_ok : Bool
  clear : ClearTx
deriving DecidableEq, Repr

/-- `set_display_orientation`, main.c:114-200: resolve the orientation
(invalid values are rejected with `ESP_ERR_INVALID_ARG` before any panel
operation), write MADCTL, set the gap offsets — returning early with the
state untouched if either write fails — then update
`current_orientation` and (when LVGL is registered) the LVGL logical
resolution, and finally clear the screen, whose failure is returned
after the state update. -/
def set_display_orientation (tx : OrientTx) (st : DisplayState) (o : Int) :
    EspErr × DisplayState × List PanelOp :=
  match resolveOrientation o with
  | none => (.invalidArg, st, [])
  | some p =>
    if !tx.madctl_ok then (.txFail, st, [.txParam 0x36 [p.madctl]])
    else if !tx.set_gap_ok then
      (.txFail, st, [.txParam 0x36 [p.madctl], .setGap p.x_gap p.y_gap])
    else
      let st' : DisplayState :=
        { current_orientation := o
          lvgl_registered := st.lvgl_registered
          hor_res := if st.lvgl_registered then p.hor_res else st.hor_res
          ver_res := if st.lvgl_registered then p.ver_res else st.ver_res }
      let c := clear_screen tx.clear st'
      (c.1, st', [.txParam 0x36 [p.madctl], .setGap p.x_gap p.y_gap] ++ c.2)

/-- Outcomes of the fallible steps of `lvgl_flush_cb`, main.c:423-453:
the three window commands of its `set_draw_area` call and
`esp_lcd_panel_draw_bitmap`. -/
structure FlushTx where
  draw : DrawTx
  bitmap_ok : Bool
deriving DecidableEq, Repr

/-- `lvgl_flush_cb`, main.c:423-453: set the draw area; on failure
return without signalling (main.c:435); otherwise stream the pixel
buffer, returning without signalling if the draw fails (main.c:443);
otherwise terminate the colour transfer and signal flush-complete via
`lv_disp_flush_ready`. Returns the trace of panel operations and whether
flush-complete was signalled. -/
def lvgl_flush_cb (tx : FlushTx) (o : Int) (r : Rect) : List PanelOp × Bool :=
  let d := set_draw_area tx.draw o r
  if d.1 ≠ .ok then (d.2, false)
  else if !tx.bitmap_ok then (d.2 ++ [.drawBitmap], false)
  else (d.2 ++ [.drawBitmap, .txColor], true)

/-- `set_draw_area` run against the global state: the function reads
`current_orientation` (main.c:222-231) and assigns no global variable,
so the state after the call is the state before it. -/
def set_draw_area_run (tx : DrawTx) (st : DisplayState) (r : Rect) :
    EspErr × List PanelOp × DisplayState :=
  let d := set_draw_area tx st.current_orientation r
  (d.1, d.2, st)

/-- The driver state at startup: `current_orientation` is statically
initialised to `DISPLAY_ORIENTATION_90` (main.c:68); `lvgl_disp` is NULL
(main.c:67) until `init_lvgl` registers the driver with initial
`hor_res = LCD_V_RES`, `ver_res = LCD_H_RES` (main.c:477-478). -/
def initialState : DisplayState :=
  { current_orientation := DISPLAY_ORIENTATION_90
    lvgl_registered := false
    hor_res := LCD_V_RES
    ver_res := LCD_H_RES }

/-- The orientation argument `init_display` passes to
`set_display_orientation` during display bring-up, main.c:664. -/
def init_display_orientation_arg : Int := DISPLAY_ORIENTATION_90

/-- Big-endian byte pair of a 16-bit value: high byte then low byte —
the parameter encoding the spec describes for the window commands. -/
def be16 (v : Nat) : List Nat := [v / 256, v % 256]

/-- Inverse logical-to-physical mapping, modelled from the spec's
round-trip law: for each orientation, the mapping that sends a physical
column/row window back to the logical rectangle (inverting the axis
swap and the edge-inclusive inversions of `translateRect`). -/
def inverseTranslate (o : Int) (w : DrawWindow) : Option Rect :=
  if o = DISPLAY_ORIENTATION_0 then
    some { x_start := w.col_start, x_end := w.col_end
           y_start := w.row_start, y_end := w.row_end }
  else if o = DISPLAY_ORIENTATION_90 then
    some { x_start := w.row_start, x_end := w.row_end
           y_start := w.col_start, y_end := w.col_end }
  else if o = DISPLAY_ORIENTATION_180 then
    some { x_start := LCD_H_RES - 1 - w.col_end, x_end := LCD_H_RES - 1 - w.col_start
           y_start := LCD_V_RES - 1 - w.row_end, y_end := LCD_V_RES - 1 - w.row_start }
  else if o = DISPLAY_ORIENTATION_270 then
    some { x_start := LCD_V_RES - 1 - w.row_end, x_end := LCD_V_RES - 1 - w.row_start
           y_start := LCD_H_RES - 1 - w.col_end, y_end := LCD_H_RES - 1 - w.col_start }
  else none

/-! ### Helper lemmas -/

/-- `toU16` always lands below 2^16. -/
lemma toU16_lt (i : Int) : toU16 i < 65536 := by
  simp only [toU16]
  omega

/-- Every physical window produced by `translateRect` has all four
fields below 2^16. -/
lemma translateRect_lt (o : Int) (r : Rect) (w : DrawWindow)
    (hw : translateRect o r = some w) :
    w.col_start < 65536 ∧ w.col_end < 65536 ∧ w.row_start < 65536 ∧ w.row_end < 65536 := by
  simp only [translateRect, physMap] at hw
  split at hw <;> try split at hw
  all_goals first
    | (cases hw; exact ⟨toU16_lt _, toU16_lt _, toU16_lt _, toU16_lt _⟩)
    | (split at hw <;> first
        | (cases hw; exact ⟨toU16_lt _, toU16_lt _, toU16_lt _, toU16_lt _⟩)
        | (split at hw <;> first
            | (cases hw; exact ⟨toU16_lt _, toU16_lt _, toU16_lt _, toU16_lt _⟩)
            | cases hw))

/-- Masking a natural number with 0xFF is reduction mod 256. -/
lemma and255 (v : Nat) : v &&& 255 = v % 256 :=
  Nat.and_pow_two_sub_one_eq_mod v 8

/-- Shifting a natural number right by 8 is division by 256. -/
lemma shr8 (v : Nat) : v >>> 8 = v / 256 :=
  Nat.shiftRight_eq_div_pow v 8

/-- For a 16-bit window edge the CASET parameter bytes are exactly the
big-endian start pair followed by the big-endian end pair. -/
lemma casetOp_eq (w : DrawWindow) (h1 : w.col_start < 65536) (h2 : w.col_end < 65536) :
    casetOp w = .txParam 0x2A (be16 w.col_start ++ be16 w.col_end) := by
  have e1 : w.col_start / 256 % 256 = w.col_start / 256 := Nat.mod_eq_of_lt (by omega)
  have e2 : w.col_end / 256 % 256 = w.col_end / 256 := Nat.mod_eq_of_lt (by omega)
  simp [casetOp, be16, and255, shr8, e1, e2]

/-- For a 16-bit window edge the RASET parameter bytes are exactly the
big-endian start pair followed by the big-endian end pair. -/
lemma rasetOp_eq (w : DrawWindow) (h1 : w.row_start < 65536) (h2 : w.row_end < 65536) :
    rasetOp w = .txParam 0x2B (be16 w.row_start ++ be16 w.row_end) := by
  have e1 : w.row_start / 256 % 256 = w.row_start / 256 := Nat.mod_eq_of_lt (by omega)
  have e2 : w.row_end / 256 % 256 = w.row_end / 256 := Nat.mod_eq_of_lt (by omega)
  simp [rasetOp, be16, and255, shr8, e1, e2]

/-! ### Claims -/

/-- Claim C1: for every logical rectangle, after offset and clamping,
`set_draw_area` maps logical edges to the physical column/row window by
exactly the four orientation branches: 0° is the identity, 90° swaps
axes without inversion, 180° inverts both axes without swapping using
edge-inclusive arithmetic over physical width 170 and height 320, and
270° swaps and inverts. -/
theorem set_draw_area_orientation_branches (r : Rect) :
    translateRect DISPLAY_ORIENTATION_0 r =
      some { col_start := toU16 (clampRect DISPLAY_ORIENTATION_0 r).x_start
             col_end := toU16 (clampRect DISPLAY_ORIENTATION_0 r).x_end
             row_start := toU16 (clampRect DISPLAY_ORIENTATION_0 r).y_start
             row_end := toU16 (clampRect DISPLAY_ORIENTATION_0 r).y_end } ∧
    translateRect DISPLAY_ORIENTATION_90 r =
      some { col_start := toU16 (clampRect DISPLAY_ORIENTATION_90 r).y_start
             col_end := toU16 (clampRect DISPLAY_ORIENTATION_90 r).y_end
             row_start := toU16 (clampRect DISPLAY_ORIENTATION_90 r).x_start
             row_end := toU16 (clampRect DISPLAY_ORIENTATION_90 r).x_end } ∧
    translateRect DISPLAY_ORIENTATION_180 r =
      some { col_start := toU16 (170 - 1 - (clampRect DISPLAY_ORIENTATION_180 r).x_end)
             col_end := toU16 (170 - 1 - (clampRect DISPLAY_ORIENTATION_180 r).x_start)
             row_start := toU16 (320 - 1 - (clampRect DISPLAY_ORIENTATION_180 r).y_end)
             row_end := toU16 (320 - 1 - (clampRect DISPLAY_ORIENTATION_180 r).y_start) } ∧
    translateRect DISPLAY_ORIENTATION_270 r =
      some { col_start := toU16 (170 - 1 - (clampRect DISPLAY_ORIENTATION_270 r).y_end)
             col_end := toU16 (170 - 1 - (clampRect DISPLAY_ORIENTATION_270 r).y_start)
             row_start := toU16 (320 - 1 - (clampRect DISPLAY_ORIENTATION_270 r).x_end)
             row_end := toU16 (320 - 1 - (clampRect DISPLAY_ORIENTATION_270 r).x_start) } :=
  ⟨rfl, rfl, rfl, rfl⟩

/-- Claim C5: the orientation resolution returns the physical dimensions
unswapped (170×320) for 0° and 180°, swapped (320×170) for 90° and
270°, with gap offsets (35, 0) for 0°/180° and (0, 35) for 90°/270°. -/
theorem resolveOrientation_spec :
    resolveOrientation DISPLAY_ORIENTATION_0 =
      some { madctl := 0x08, hor_res := 170, ver_res := 320, x_gap := 35, y_gap := 0 } ∧
    resolveOrientation DISPLAY_ORIENTATION_90 =
      some { madctl := 0x68, hor_res := 320, ver_res := 170, x_gap := 0, y_gap := 35 } ∧
    resolveOrientation DISPLAY_ORIENTATION_180 =
      some { madctl := 0xC8, hor_res := 170, ver_res := 320, x_gap := 35, y_gap := 0 } ∧
    resolveOrientation DISPLAY_ORIENTATION_270 =
      some { madctl := 0xA8, hor_res := 320, ver_res := 170, x_gap := 0, y_gap := 35 } :=
  ⟨rfl, rfl, rfl, rfl⟩

/-- Claim C10: at startup the stored orientation is
`DISPLAY_ORIENTATION_90`, both as the static initial value and as the
orientation applied during display bring-up, and the logical resolution
it resolves to — the one the renderer sees — is 320×170. -/
theorem initial_orientation_is_90 :
    initialState.current_orientation = DISPLAY_ORIENTATION_90 ∧
    init_display_orientation_arg = DISPLAY_ORIENTATION_90 ∧
    (resolveOrientation DISPLAY_ORIENTATION_90).map (fun p => (p.hor_res, p.ver_res)) =
      some (320, 170) ∧
    initialState.hor_res = 320 ∧ initialState.ver_res = 170 :=
  ⟨rfl, rfl, rfl, rfl, rfl⟩

/-- Claim C6: any orientation value outside the four recognised ones is
rejected with `ESP_ERR_INVALID_ARG`, with no panel operation attempted
and the state untouched. -/
theorem set_display_orientation_invalid (tx : OrientTx) (st : DisplayState) (o : Int)
    (h0 : o ≠ DISPLAY_ORIENTATION_0) (h1 : o ≠ DISPLAY_ORIENTATION_90)
    (h2 : o ≠ DISPLAY_ORIENTATION_180) (h3 : o ≠ DISPLAY_ORIENTATION_270) :
    set_display_orientation tx st o = (.invalidArg, st, []) := by
  unfold set_display_orientation resolveOrientation
  rw [if_neg h0, if_neg h1, if_neg h2, if_neg h3]

/-- Concrete instance of `set_display_orientation_invalid`: the value 7
is rejected with the state untouched and no command sent. -/
theorem set_display_orientation_invalid_w :
    set_display_orientation ⟨true, true, ⟨true, ⟨true, true, true⟩, true⟩⟩ initialState 7 =
      (.invalidArg, initialState, []) :=
  set_display_orientation_invalid _ _ 7 (by decide) (by decide) (by decide) (by decide)

/-- Counterexample to claim C3 as stated: the rectangle x = 200..300,
y = 0..0 at orientation 0° has x_start ≤ x_end and extends past the
panel edge, yet the resulting physical window has
col_start = 200 > col_end = 169 and col_start outside [0, 169] — the
clamping only lower-bounds the start and upper-bounds the end
coordinates, so a rectangle lying entirely past the edge is not
truncated to a valid window. -/
theorem set_draw_area_clamp_cex :
    translateRect DISPLAY_ORIENTATION_0 { x_start := 200, x_end := 300, y_start := 0, y_end := 0 } =
      some { col_start := 200, col_end := 169, row_start := 0, row_end := 0 } ∧
    ¬(200 ≤ 169) := by
  constructor
  · rfl
  · decide

/-- Claim C3, amended: for every rectangle with ordered edges that
actually intersects the panel of the current orientation (start
coordinates at most the panel maxima and end coordinates nonnegative),
`set_draw_area` clamps rather than fails and the resulting physical
window satisfies col_start ≤ col_end ≤ 169 and
row_start ≤ row_end ≤ 319. -/
theorem set_draw_area_clamp_amended (o : Int) (r : Rect)
    (ho : o = DISPLAY_ORIENTATION_0 ∨ o = DISPLAY_ORIENTATION_90 ∨
          o = DISPLAY_ORIENTATION_180 ∨ o = DISPLAY_ORIENTATION_270)
    (hx : r.x_start ≤ r.x_end) (hy : r.y_start ≤ r.y_end)
    (hxs : r.x_start ≤ max_x o) (hys : r.y_start ≤ max_y o)
    (hxe : 0 ≤ r.x_end) (hye : 0 ≤ r.y_end) :
    ∃ w, translateRect o r = some w ∧
      w.col_start ≤ w.col_end ∧ w.row_start ≤ w.row_end ∧
      w.col_end ≤ 169 ∧ w.row_end ≤ 319 := by
  obtain ⟨x1, x2, y1, y2⟩ := r
  rcases ho with h | h | h | h <;> subst h <;>
    refine ⟨_, rfl, ?_, ?_, ?_, ?_⟩ <;>
    simp_all [translateRect, clampRect, physMap, toU16, max_x, max_y,
      LCD_H_RES, LCD_V_RES, LCD_X_OFFSET, LCD_Y_OFFSET,
      DISPLAY_ORIENTATION_0, DISPLAY_ORIENTATION_90,
      DISPLAY_ORIENTATION_180, DISPLAY_ORIENTATION_270] <;>
    omega

/-- Concrete instance of `set_draw_area_clamp_amended`: at orientation
0° the rectangle x = 100..300, y = -5..10 intersects the panel and is
truncated to the valid window cols 100..169, rows 0..10. -/
theorem set_draw_area_clamp_amended_w :
    ∃ w, translateRect DISPLAY_ORIENTATION_0
        { x_start := 100, x_end := 300, y_start := -5, y_end := 10 } = some w ∧
      w.col_start ≤ w.col_end ∧ w.row_start ≤ w.row_end ∧
      w.col_end ≤ 169 ∧ w.row_end ≤ 319 :=
  set_draw_area_clamp_amended DISPLAY_ORIENTATION_0
    { x_start := 100, x_end := 300, y_start := -5, y_end := 10 }
    (Or.inl rfl) (by decide) (by decide) (by decide) (by decide) (by decide) (by decide)

/-- Claim C2: for every rectangle fully inside the panel bounds of the
current orientation (with the zero logical offsets of this build),
applying `set_draw_area`'s logical-to-physical mapping and then the
spec's inverse mapping for the same orientation recovers the original
rectangle, for each of the four orientations. -/
theorem translateRect_roundtrip (o : Int) (r : Rect)
    (ho : o = DISPLAY_ORIENTATION_0 ∨ o = DISPLAY_ORIENTATION_90 ∨
          o = DISPLAY_ORIENTATION_180 ∨ o = DISPLAY_ORIENTATION_270)
    (hx0 : 0 ≤ r.x_start) (hx : r.x_start ≤ r.x_end) (hx1 : r.x_end ≤ max_x o)
    (hy0 : 0 ≤ r.y_start) (hy : r.y_start ≤ r.y_end) (hy1 : r.y_end ≤ max_y o) :
    (translateRect o r).bind (inverseTranslate o) = some r := by
  obtain ⟨x1, x2, y1, y2⟩ := r
  rcases ho with h | h | h | h <;> subst h <;>
    simp_all [translateRect, clampRect, physMap, inverseTranslate, toU16,
      max_x, max_y, LCD_H_RES, LCD_V_RES, LCD_X_OFFSET, LCD_Y_OFFSET,
      DISPLAY_ORIENTATION_0, DISPLAY_ORIENTATION_90,
      DISPLAY_ORIENTATION_180, DISPLAY_ORIENTATION_270, Rect.mk.injEq] <;>
    omega

/-- Concrete instance of `translateRect_roundtrip`: at orientation 270°
the in-bounds rectangle x = 5..10, y = 3..8 maps to a physical window
and back to itself. -/
theorem translateRect_roundtrip_w :
    (translateRect DISPLAY_ORIENTATION_270
        { x_start := 5, x_end := 10, y_start := 3, y_end := 8 }).bind
      (inverseTranslate DISPLAY_ORIENTATION_270) =
    some { x_start := 5, x_end := 10, y_start := 3, y_end := 8 } :=
  translateRect_roundtrip DISPLAY_ORIENTATION_270
    { x_start := 5, x_end := 10, y_start := 3, y_end := 8 }
    (by decide) (by decide) (by decide) (by decide) (by decide) (by decide) (by decide)

/-- Claim C7: whenever the rectangle translates to a window,
`set_draw_area` attempts the column-window command (opcode 0x2A), then
the row-window command (opcode 0x2B), then the zero-parameter memory
write (opcode 0x2C), each window command carrying exactly the big-endian
16-bit start pair followed by the big-endian 16-bit end pair; the first
command failure aborts the rest of the sequence and returns the
error. -/
theorem set_draw_area_command_sequence (tx : DrawTx) (o : Int) (r : Rect) (w : DrawWindow)
    (hw : translateRect o r = some w) :
    set_draw_area tx o r =
      if tx.caset_ok then
        if tx.raset_ok then
          if tx.ramwr_ok then
            (.ok, [.txParam 0x2A (be16 w.col_start ++ be16 w.col_end),
                   .txParam 0x2B (be16 w.row_start ++ be16 w.row_end),
                   .txParam 0x2C []])
          else
            (.txFail, [.txParam 0x2A (be16 w.col_start ++ be16 w.col_end),
                       .txParam 0x2B (be16 w.row_start ++ be16 w.row_end),
                       .txParam 0x2C []])
        else
          (.txFail, [.txParam 0x2A (be16 w.col_start ++ be16 w.col_end),
                     .txParam 0x2B (be16 w.row_start ++ be16 w.row_end)])
      else (.txFail, [.txParam 0x2A (be16 w.col_start ++ be16 w.col_end)]) := by
  obtain ⟨h1, h2, h3, h4⟩ := translateRect_lt o r w hw
  obtain ⟨cOk, rOk, mOk⟩ := tx
  unfold set_draw_area
  rw [hw]
  cases cOk <;> cases rOk <;> cases mOk <;>
    simp [casetOp_eq w h1 h2, rasetOp_eq w h3 h4, ramwrOp]

/-- Concrete instance of `set_draw_area_command_sequence`: at
orientation 90° with a working transport, the rectangle x = 0..300,
y = 0..100 issues CASET 0..100, RASET 0..300 and RAMWR, the 300
split big-endian as bytes 1 and 44. -/
theorem set_draw_area_command_sequence_w :
    set_draw_area { caset_ok := true, raset_ok := true, ramwr_ok := true }
        DISPLAY_ORIENTATION_90 { x_start := 0, x_end := 300, y_start := 0, y_end := 100 } =
      (.ok, [.txParam 0x2A [0, 0, 0, 100],
             .txParam 0x2B [0, 0, 1, 44],
             .txParam 0x2C []]) :=
  set_draw_area_command_sequence
    { caset_ok := true, raset_ok := true, ramwr_ok := true }
    DISPLAY_ORIENTATION_90 { x_start := 0, x_end := 300, y_start := 0, y_end := 100 }
    { col_start := 0, col_end := 100, row_start := 0, row_end := 300 } (by decide)

/-- Claim C8: the flush callback signals flush-complete exactly when
both the window setup and the pixel stream succeeded; when the window
setup fails it returns without the completion signal, and on success it
streams the pixel buffer, terminates the colour transfer, and only then
signals flush-complete. -/
theorem lvgl_flush_signals (tx : FlushTx) (o : Int) (r : Rect) :
    ((lvgl_flush_cb tx o r).2 = true ↔
      ((set_draw_area tx.draw o r).1 = .ok ∧ tx.bitmap_ok = true)) ∧
    ((set_draw_area tx.draw o r).1 ≠ .ok →
      lvgl_flush_cb tx o r = ((set_draw_area tx.draw o r).2, false)) ∧
    ((set_draw_area tx.draw o r).1 = .ok → tx.bitmap_ok = true →
      lvgl_flush_cb tx o r =
        ((set_draw_area tx.draw o r).2 ++ [.drawBitmap, .txColor], true)) := by
  obtain ⟨dtx, b⟩ := tx
  by_cases h : (set_draw_area dtx o r).1 = .ok <;>
    cases b <;>
    simp_all [lvgl_flush_cb]

/-- Concrete instance of `lvgl_flush_signals`: with a working transport
at orientation 90°, flushing the area x = 0..4, y = 0..4 issues the
window commands, streams the buffer, terminates the transfer and
signals flush-complete. -/
theorem lvgl_flush_signals_w :
    lvgl_flush_cb { draw := { caset_ok := true, raset_ok := true, ramwr_ok := true },
                    bitmap_ok := true }
        DISPLAY_ORIENTATION_90 { x_start := 0, x_end := 4, y_start := 0, y_end := 4 } =
      ((set_draw_area { caset_ok := true, raset_ok := true, ramwr_ok := true }
          DISPLAY_ORIENTATION_90
          { x_start := 0, x_end := 4, y_start := 0, y_end := 4 }).2 ++
        [.drawBitmap, .txColor], true) :=
  (lvgl_flush_signals
    { draw := { caset_ok := true, raset_ok := true, ramwr_ok := true }, bitmap_ok := true }
    DISPLAY_ORIENTATION_90 { x_start := 0, x_end := 4, y_start := 0, y_end := 4 }).2.2
    (by decide) (by decide)

/-- Claim C9: a `set_draw_area` call never mutates the driver state —
run against the global state, the state after the call is the state
before it, for any transport outcome — and when the stored orientation
is one of the four valid values, a retry of the same rectangle with a
recovered transport translates through the unchanged orientation to the
same physical window and succeeds. -/
theorem set_draw_area_preserves_state (tx : DrawTx) (st : DisplayState) (r : Rect)
    (ho : st.current_orientation = DISPLAY_ORIENTATION_0 ∨
          st.current_orientation = DISPLAY_ORIENTATION_90 ∨
          st.current_orientation = DISPLAY_ORIENTATION_180 ∨
          st.current_orientation = DISPLAY_ORIENTATION_270) :
    (set_draw_area_run tx st r).2.2 = st ∧
    ∃ w, translateRect st.current_orientation r = some w ∧
      set_draw_area_run { caset_ok := true, raset_ok := true, ramwr_ok := true } st r =
        (.ok, [casetOp w, rasetOp w, ramwrOp], st) := by
  refine ⟨rfl, ?_⟩
  obtain ⟨co, lvgl, hres, vres⟩ := st
  simp only at ho
  rcases ho with h | h | h | h <;> subst h <;>
    exact ⟨_, rfl, rfl⟩

/-- Concrete instance of `set_draw_area_preserves_state`: a call whose
CASET write fails leaves the startup state intact, and the retry with a
working transport on the same rectangle succeeds with the full command
sequence for the same window. -/
theorem set_draw_area_preserves_state_w :
    (set_draw_area_run { caset_ok := false, raset_ok := true, ramwr_ok := true }
        initialState { x_start := 0, x_end := 4, y_start := 0, y_end := 4 }).2.2 =
      initialState ∧
    ∃ w, translateRect initialState.current_orientation
        { x_start := 0, x_end := 4, y_start := 0, y_end := 4 } = some w ∧
      set_draw_area_run { caset_ok := true, raset_ok := true, ramwr_ok := true }
          initialState { x_start := 0, x_end := 4, y_start := 0, y_end := 4 } =
        (.ok, [casetOp w, rasetOp w, ramwrOp], initialState) :=
  set_draw_area_preserves_state
    { caset_ok := false, raset_ok := true, ramwr_ok := true } initialState
    { x_start := 0, x_end := 4, y_start := 0, y_end := 4 } (Or.inr (Or.inl (by decide)))

/-- Counterexample to claim C4 as stated: with a transport whose MADCTL
and gap writes succeed but whose screen-clear allocation fails,
`set_display_orientation` from the startup state (orientation 90°) to
orientation 0° returns a failure result, yet the stored orientation has
been changed to 0° — the state update at main.c:180 happens before the
`clear_screen` call at main.c:193, whose failure is returned. -/
theorem set_display_orientation_cex :
    (set_display_orientation
        { madctl_ok := true, set_gap_ok := true
          clear := { alloc_ok := false
                     draw := { caset_ok := true, raset_ok := true, ramwr_ok := true }
                     bitmap_ok := true } }
        initialState DISPLAY_ORIENTATION_0).1 ≠ .ok ∧
    (set_display_orientation
        { madctl_ok := true, set_gap_ok := true
          clear := { alloc_ok := false
                     draw := { caset_ok := true, raset_ok := true, ramwr_ok := true }
                     bitmap_ok := true } }
        initialState DISPLAY_ORIENTATION_0).2.1.current_orientation ≠
      initialState.current_orientation := by
  decide

/-- Claim C4, amended: if `set_display_orientation` fails because the
orientation value is invalid, or because the MADCTL write or the gap-set
write fails, the stored state is left unchanged at its prior value; but
once both command writes succeed the orientation state (and, when LVGL
is registered, the derived logical resolution) is updated to the new
orientation even if the subsequent screen clear fails and the call
returns that failure. -/
theorem set_display_orientation_state_change (tx : OrientTx) (st : DisplayState) (o : Int) :
    (resolveOrientation o = none →
      set_display_orientation tx st o = (.invalidArg, st, [])) ∧
    (tx.madctl_ok = false → (set_display_orientation tx st o).2.1 = st) ∧
    (tx.set_gap_ok = false → (set_display_orientation tx st o).2.1 = st) ∧
    (∀ p, resolveOrientation o = some p → tx.madctl_ok = true → tx.set_gap_ok = true →
      (set_display_orientation tx st o).2.1 =
        { current_orientation := o
          lvgl_registered := st.lvgl_registered
          hor_res := if st.lvgl_registered then p.hor_res else st.hor_res
          ver_res := if st.lvgl_registered then p.ver_res else st.ver_res }) := by
  obtain ⟨m, g, c⟩ := tx
  cases hro : resolveOrientation o <;>
    cases m <;> cases g <;>
    simp_all [set_display_orientation]

/-- Concrete instance of `set_display_orientation_state_change`: when
the MADCTL write fails, switching from the startup state to orientation
0° leaves the state unchanged. -/
theorem set_display_orientation_state_change_w :
    (set_display_orientation
        { madctl_ok := false, set_gap_ok := true
          clear := { alloc_ok := true
                     draw := { caset_ok := true, raset_ok := true, ramwr_ok := true }
                     bitmap_ok := true } }
        initialState DISPLAY_ORIENTATION_0).2.1 = initialState :=
  (set_display_orientation_state_change
    { madctl_ok := false, set_gap_ok := true
      clear := { alloc_ok := true
                 draw := { caset_ok := true, raset_ok := true, ramwr_ok := true }
                 bitmap_ok := true } }
    initialState DISPLAY_ORIENTATION_0).2.1 rfl
